import Mathlib

/-!
Verification of the AI-executor core of the excel-ai-agent backend.

The development shallowly embeds the three collaborating modules of
`backend/app/services/ai_executor/`:

* `validator.py`  — `CodeValidator` / `ValidationResult`: a pure AST scan of
  generated Python code (import tiers, dangerous builtins, file paths);
* `docker_sandbox.py` — `DockerSandbox` / `ExecutionResult`: the container
  lifecycle `execute_code` (create, start, copy input, exec, harvest, cleanup),
  embedded as a function of an environment oracle describing the outcome of
  each external Docker call;
* `executor.py` — `AICodeExecutor.execute_task`: the orchestrator branching on
  the validation verdict.

Python values are modelled directly: strings as `String`, `dict` as an
insertion-ordered association list, `set` as an insertion-ordered
duplicate-free list (membership is all that the proofs use), bytes as
`List Nat`, and a raised exception as an explicit `StepOutcome.raise`.
-/

namespace ExcelAI

/-! ### A fragment of the Python AST (`ast` module)

Only the node shapes inspected by `CodeValidator` are embedded:
`ast.Import`, `ast.ImportFrom`, `ast.Call`, `ast.Name`, `ast.Attribute`,
`ast.Constant`.  A constant is either a string literal (`constStr`) or some
other literal (`constOther`); that distinction is exactly what
`isinstance(file_path, str)` tests.  `ast.walk` reaches every nested node, so
a program is modelled as the statement list the walk traverses, with calls
nested arbitrarily inside expressions. -/

inductive PyExpr where
  | name (id : String)
  | attr (value : PyExpr) (attrName : String)
  | constStr (s : String)
  | constOther
  | call (func : PyExpr) (args : List PyExpr)
deriving Repr

inductive PyStmt where
  | importStmt (names : List String)
  | importFrom (module : Option String)
  | exprStmt (e : PyExpr)
deriving Repr

abbrev Program := List PyStmt

mutual
/-- All `ast.Call` nodes (as `(func, args)` pairs) reachable from an
expression, as `ast.walk` would visit them. -/
def PyExpr.calls : PyExpr → List (PyExpr × List PyExpr)
  | .name _ => []
  | .constStr _ => []
  | .constOther => []
  | .attr v _ => PyExpr.calls v
  | .call f args => (f, args) :: (PyExpr.calls f ++ callsList args)

def callsList : List PyExpr → List (PyExpr × List PyExpr)
  | [] => []
  | e :: es => PyExpr.calls e ++ callsList es
end

def stmtCalls : PyStmt → List (PyExpr × List PyExpr)
  | .exprStmt e => e.calls
  | _ => []

def programCalls (p : Program) : List (PyExpr × List PyExpr) :=
  (p.map stmtCalls).flatten

/-! ### `validator.py` — `ValidationResult` and `CodeValidator` -/

/-- `ValidationResult` dataclass (validator.py lines 23-61), with the
`__post_init__` `None`-to-empty defaults folded into field defaults. -/
structure ValidationResult where
  is_safe : Bool
  risk_level : String
  requires_permission : Bool := false
  explanation : String := ""
  code_preview : String := ""
  restricted_imports : List String := []
  reason : Option String := none
  warnings : List String := []
  allowed_imports : List String := []
deriving Repr

/-- `CodeValidator.LOW_RISK_IMPORTS`. -/
def LOW_RISK_IMPORTS : List String :=
  ["pandas", "pd", "openpyxl", "numpy", "np", "pathlib", "Path",
   "datetime", "dt", "json", "csv", "re", "math", "statistics",
   "decimal", "Decimal", "collections"]

/-- `CodeValidator.MEDIUM_RISK_IMPORTS`. -/
def MEDIUM_RISK_IMPORTS : List String :=
  ["requests", "urllib", "urllib3", "xlrd", "pyxlsb", "xlwings", "httpx"]

/-- `CodeValidator.HIGH_RISK_IMPORTS`. -/
def HIGH_RISK_IMPORTS : List String :=
  ["os", "sys", "subprocess", "shutil", "socket", "pickle", "shelve",
   "importlib", "__import__", "ctypes", "cffi", "multiprocessing",
   "threading", "pty", "termios", "fcntl", "ioctl"]

/-- `CodeValidator.DANGEROUS_BUILTINS`. -/
def DANGEROUS_BUILTINS : List String :=
  ["eval", "exec", "compile", "__import__", "open", "input"]

/-- Characters of a string up to (excluding) the first occurrence of `c`.
Structurally recursive so that concrete programs evaluate inside the kernel
(the library's `String.splitOn` is defined by well-founded recursion and
does not). -/
def takeUntilChar (c : Char) : List Char → List Char
  | [] => []
  | x :: xs => if x = c then [] else x :: takeUntilChar c xs

/-- Python `str.startswith`: is `pre` a prefix of `s`?  (Character-list
implementation, kernel-reducible.) -/
def strStartsWith (s pre : String) : Bool :=
  pre.data.isPrefixOf s.data

/-- `alias.name.split('.')[0]` / `node.module.split('.')[0]`: the root
module name is everything before the first dot. -/
def rootModule (s : String) : String :=
  ⟨takeUntilChar '.' s.data⟩

/-- Python `set.add`: membership-preserving insert (insertion order stands in
for the set's unspecified iteration order; the proofs use membership only). -/
def setAdd (s : List String) (x : String) : List String :=
  if x ∈ s then s else s ++ [x]

/-- The three accumulators of `CodeValidator._check_imports`. -/
structure ImportBuckets where
  low : List String
  med : List String
  high : List String
deriving Repr

/-- Classification of one root module name into the three buckets
(validator.py lines 199-207 = 213-221; both branches are identical). -/
def classifyRoot (b : ImportBuckets) (root : String) : ImportBuckets :=
  if root ∈ HIGH_RISK_IMPORTS then { b with high := setAdd b.high root }
  else if root ∈ MEDIUM_RISK_IMPORTS then { b with med := setAdd b.med root }
  else if root ∈ LOW_RISK_IMPORTS then { b with low := setAdd b.low root }
  else { b with med := setAdd b.med root }

/-- The root module names an `ast.Import` / `ast.ImportFrom` statement
contributes to the walk in `_check_imports` (an `ImportFrom` with
`module = None` contributes nothing, per `if node.module`). -/
def stmtRoots : PyStmt → List String
  | .importStmt names => names.map rootModule
  | .importFrom (some m) => [rootModule m]
  | .importFrom none => []
  | .exprStmt _ => []

def rootsOf (p : Program) : List String :=
  (p.map stmtRoots).flatten

def collectImports (p : Program) : ImportBuckets :=
  (rootsOf p).foldl classifyRoot ⟨[], [], []⟩

/-- Explanations dict of `_generate_permission_explanation`. -/
def explanationFor : String → Option String
  | "requests" => some "to make HTTP requests to external APIs (e.g., Stripe, NetSuite)"
  | "urllib" => some "to access web resources and download data"
  | "urllib3" => some "to make advanced HTTP connections"
  | "xlrd" => some "to read legacy Excel files (.xls format)"
  | "pyxlsb" => some "to read binary Excel files (.xlsb format)"
  | "xlwings" => some "to perform advanced Excel automation"
  | "httpx" => some "to make modern async HTTP requests"
  | _ => none

/-- `CodeValidator._generate_permission_explanation`. -/
def generatePermissionExplanation (imports : List String) : String :=
  let knownImports := imports.filter (fun m => (explanationFor m).isSome)
  let unknownImports := imports.filter (fun m => (explanationFor m).isNone)
  match imports with
  | [m] =>
    match explanationFor m with
    | some why => "Code needs '" ++ m ++ "' library " ++ why ++ "."
    | none =>
      "Code needs '" ++ m ++ "' library (not in standard whitelist). " ++
      "This is an unknown library that may provide additional functionality. " ++
      "Please verify this is a legitimate library before approving."
  | _ =>
    let parts :=
      (if knownImports ≠ [] then
        ["Known libraries: " ++ String.intercalate ", "
          (knownImports.map (fun m => "'" ++ m ++ "' (" ++ (explanationFor m).getD "" ++ ")"))]
      else []) ++
      (if unknownImports ≠ [] then
        ["Unknown libraries (verify before approving): " ++
          String.intercalate ", " (unknownImports.map (fun m => "'" ++ m ++ "'"))]
      else [])
    "Code needs these libraries: " ++ String.intercalate "; " parts ++ "."

/-- `CodeValidator._check_imports` (validator.py lines 175-260). -/
def checkImports (p : Program) : ValidationResult :=
  if (collectImports p).high ≠ [] then
    { is_safe := false
      risk_level := "high"
      requires_permission := false
      reason := some ("HIGH RISK imports detected (always blocked): " ++
        String.intercalate ", " (collectImports p).high)
      restricted_imports := (collectImports p).high
      warnings := [] }
  else if (collectImports p).med ≠ [] then
    { is_safe := true
      risk_level := "medium"
      requires_permission := true
      explanation := generatePermissionExplanation (collectImports p).med
      restricted_imports := (collectImports p).med
      allowed_imports := (collectImports p).low
      warnings := ["Requires user permission for: " ++
        String.intercalate ", " (collectImports p).med] }
  else
    { is_safe := true
      risk_level := "low"
      requires_permission := false
      allowed_imports := (collectImports p).low
      warnings := [] }

/-- Function-name extraction of `_check_dangerous_builtins` (lines 322-330):
a bare `ast.Name` yields its id; an `ast.Attribute` whose receiver is an
`ast.Name` is deliberately skipped (`pass  # pandas.eval() is OK`); an
`ast.Attribute` with any other receiver yields the attribute name. -/
def builtinsFuncName : PyExpr → Option String
  | .name id => some id
  | .attr v a =>
    match v with
    | .name _ => none
    | _ => some a
  | _ => none

/-- One call's contribution to the violation list of
`_check_dangerous_builtins` (`if func_name and func_name in
DANGEROUS_BUILTINS`, with `open` handed off to the file check). -/
def builtinViolationOf (c : PyExpr × List PyExpr) : Option String :=
  match builtinsFuncName c.1 with
  | some n =>
    if n ≠ "" ∧ n ∈ DANGEROUS_BUILTINS ∧ n ≠ "open" then
      some ("Dangerous builtin function call detected: " ++ n)
    else none
  | none => none

def builtinViolations (p : Program) : List String :=
  (programCalls p).filterMap builtinViolationOf

/-- `CodeValidator._check_dangerous_builtins` (lines 307-350).  The unsafe
branch's reason string really does begin `File operation violations:` in the
source (line 342). -/
def checkDangerousBuiltins (p : Program) : ValidationResult :=
  if builtinViolations p = ([] : List String) then
    { is_safe := true, risk_level := "low", warnings := [] }
  else
    { is_safe := false
      risk_level := "high"
      reason := some ("File operation violations: " ++
        String.intercalate ", " (builtinViolations p))
      warnings := [] }

/-- Function-name extraction of `_check_file_operations` (lines 367-371):
here an attribute call yields its attribute name whatever the receiver is. -/
def fileOpFuncName : PyExpr → Option String
  | .name id => some id
  | .attr _ a => some a
  | _ => none

def unauthorizedFileMsg (s : String) : String :=
  "Unauthorized file access: " ++ s ++ ". Only allowed in /tmp/input or /tmp/output."

def dynamicPathWarning : String :=
  "Dynamic file path in open(). Ensure it accesses only /tmp/input or /tmp/output."

/-- One call's violation contribution in `_check_file_operations`: an `open`
call whose first argument is a string constant outside the two permitted
prefixes.  A non-string constant first argument contributes nothing at all
(the `isinstance(file_path, str)` guard). -/
def fileViolationOf (c : PyExpr × List PyExpr) : Option String :=
  match fileOpFuncName c.1 with
  | some n =>
    if n = "open" then
      match c.2.head? with
      | some (.constStr s) =>
        if strStartsWith s "/tmp/input" ∨ strStartsWith s "/tmp/output" then none
        else some (unauthorizedFileMsg s)
      | some .constOther => none
      | some _ => none
      | none => none
    else none
  | none => none

/-- One call's warning contribution in `_check_file_operations`: an `open`
call with no arguments or a non-constant first argument (`else:
warnings.append(...)`). -/
def fileWarningOf (c : PyExpr × List PyExpr) : Option String :=
  match fileOpFuncName c.1 with
  | some n =>
    if n = "open" then
      match c.2.head? with
      | some (.constStr _) => none
      | some .constOther => none
      | some _ => some dynamicPathWarning
      | none => some dynamicPathWarning
    else none
  | none => none

def fileViolations (p : Program) : List String :=
  (programCalls p).filterMap fileViolationOf

def fileWarnings (p : Program) : List String :=
  (programCalls p).filterMap fileWarningOf

/-- `CodeValidator._check_file_operations` (lines 353-396).  The single loop
appends each call's contribution to exactly one of the two lists, so the two
`filterMap`s reproduce its `violations` and `warnings` in walk order. -/
def checkFileOperations (p : Program) : ValidationResult :=
  if fileViolations p = [] then
    { is_safe := true, risk_level := "low", warnings := fileWarnings p }
  else
    { is_safe := false
      risk_level := "high"
      reason := some ("File operation violations: " ++
        String.intercalate ", " (fileViolations p))
      warnings := fileWarnings p }

/-- `CodeValidator.validate` (lines 117-174) on a successfully parsed tree:
each stage short-circuits on `is_safe == False`, otherwise the final result
propagates the import stage's risk level and concatenates the warnings. -/
def validate (p : Program) : ValidationResult :=
  if (checkImports p).is_safe = false then checkImports p
  else if (checkDangerousBuiltins p).is_safe = false then checkDangerousBuiltins p
  else if (checkFileOperations p).is_safe = false then checkFileOperations p
  else
    { is_safe := true
      risk_level := (checkImports p).risk_level
      requires_permission := (checkImports p).requires_permission
      explanation := (checkImports p).explanation
      code_preview := (checkImports p).code_preview
      restricted_imports := (checkImports p).restricted_imports
      allowed_imports := (checkImports p).allowed_imports
      warnings := (checkImports p).warnings ++ (checkDangerousBuiltins p).warnings ++
        (checkFileOperations p).warnings }

/-- The `except SyntaxError` branch of `validate` (lines 161-167). -/
def syntaxErrorResult (e : String) : ValidationResult :=
  { is_safe := false
    risk_level := "high"
    reason := some ("Syntax error in generated code: " ++ e) }

/-- The `except Exception` branch of `validate` (lines 168-174). -/
def validationErrorResult (e : String) : ValidationResult :=
  { is_safe := false
    risk_level := "high"
    reason := some ("Validation failed: " ++ e) }

/-! ### `docker_sandbox.py` — `DockerSandbox` and `ExecutionResult`

`execute_code` is a sequence of calls into the Docker daemon.  Each call is
embedded through an environment oracle (`SandboxEnv`) giving that call's
outcome: a normal return or a raised exception.  The `exec_run` call is the
one blocking step with no bound: the source passes no timeout argument, so
the call returns exactly when the invoked program exits; a program that never
exits is modelled by `execResult = .ok none`, and `executeCode` then returns
`none` (the Python call never returns — control never reaches the `finally`).

`executeCode` also returns the list of Docker operations performed, in order,
so that lifecycle claims (cleanup always runs, the sandbox is never invoked
in the approval branch) are statements about the trace. -/

inductive StepOutcome (α : Type) where
  | ok (a : α)
  | raise (msg : String)
deriving Repr

/-- The `demux=True` return of `exec_run`: optional stdout bytes, optional
stderr bytes (decoded), and the exit code. -/
structure ExecRunResult where
  stdoutOpt : Option String
  stderrOpt : Option String
  exit_code : Int
deriving Repr

/-- One member of the tar archive returned by `container.get_archive`. -/
structure TarMember where
  name : String
  isFile : Bool
  content : List Nat
deriving Repr

structure SandboxEnv where
  createResult : StepOutcome Unit
  startResult : StepOutcome Unit
  copyResult : StepOutcome Unit
  execResult : StepOutcome (Option ExecRunResult)
  archiveResult : StepOutcome (List TarMember)
deriving Repr

/-- `ExecutionResult` dataclass (docker_sandbox.py lines 29-50), with the
`__post_init__` default folded in. -/
structure ExecutionResult where
  success : Bool
  output : String
  error : String := ""
  exit_code : Int := 0
  output_files : List (String × List Nat) := []
deriving Repr

/-- `DockerSandbox.MEMORY_LIMIT`. -/
def MEMORY_LIMIT : String := "512m"

/-- `DockerSandbox.CPU_COUNT`. -/
def CPU_COUNT : Nat := 1

/-- `DockerSandbox.TIMEOUT_SECONDS` (docker_sandbox.py line 67, commented
"2 minutes max execution time").  This constant is referenced nowhere else in
the source: in particular the `exec_run` call in `_execute_python_code`
(lines 259-264) passes `cmd`, `user`, `workdir` and `demux` only. -/
def TIMEOUT_SECONDS : Nat := 120

inductive DockerAction where
  | create
  | start
  | copyFiles
  | execRun
  | getArchive
  | stop
  | remove
deriving Repr

/-- `os.path.basename`: everything after the last slash. -/
def basename (s : String) : String :=
  ⟨s.data.foldl (fun acc c => if c = '/' then [] else acc ++ [c]) []⟩

/-- Python `dict` assignment `d[k] = v`: overwrite in place, else append. -/
def dictInsert (d : List (String × List Nat)) (k : String) (v : List Nat) :
    List (String × List Nat) :=
  match d with
  | [] => [(k, v)]
  | (k', v') :: rest => if k' = k then (k, v) :: rest else (k', v') :: dictInsert rest k v

/-- The loop body filter of `_get_output_files` (lines 306-314): regular-file
members other than the root entry named `output` are stored under the
basename of their archive path. -/
def memberStored (m : TarMember) : Bool :=
  m.isFile && !(m.name == "output")

/-- One iteration of the extraction loop of `_get_output_files`:
`output_files[os.path.basename(member.name)] = file_obj.read()` for stored
members, nothing otherwise. -/
def storeStep (d : List (String × List Nat)) (m : TarMember) : List (String × List Nat) :=
  if memberStored m then dictInsert d (basename m.name) m.content else d

/-- The extraction loop of `_get_output_files` over the archive members. -/
def getOutputFiles (members : List TarMember) : List (String × List Nat) :=
  members.foldl storeStep []

/-- `DockerSandbox._get_output_files` including its own exception handling:
both the `docker.errors.NotFound` branch and the generic `except Exception`
branch swallow the failure and return the empty dict (lines 319-326). -/
def getOutputFilesStep (r : StepOutcome (List TarMember)) : List (String × List Nat) :=
  match r with
  | .ok members => getOutputFiles members
  | .raise _ => []

/-- The `except Exception` branch of `execute_code` (lines 157-164). -/
def dockerErrorResult (msg : String) : ExecutionResult :=
  { success := false
    output := ""
    error := "Docker execution error: " ++ msg
    exit_code := -1 }

/-- `DockerSandbox.execute_code` (lines 96-169).

Step order is that of the source: create, start, copy input files (skipped
when `input_files` is empty — `if input_files:`), `exec_run`, harvest, and
the `finally` cleanup (`container.stop` then `container.remove`), which runs
iff the container was created and the call returns at all.  A raise in any
step after creation falls to the `except` branch, producing
`dockerErrorResult`; the `finally` still stops and removes the container.
A raise in `_create_container` itself produces the same error result with no
cleanup (`container` is still `None`).  First component `none` means the call
never returns (`exec_run` blocking forever). -/
def executeCode (env : SandboxEnv) (input_files : List (String × List Nat)) :
    Option ExecutionResult × List DockerAction :=
  match env.createResult with
  | .raise msg => (some (dockerErrorResult msg), [])
  | .ok _ =>
    match env.startResult with
    | .raise msg => (some (dockerErrorResult msg), [.create, .stop, .remove])
    | .ok _ =>
      match (if input_files.isEmpty then .ok () else env.copyResult : StepOutcome Unit) with
      | .raise msg => (some (dockerErrorResult msg), [.create, .start, .stop, .remove])
      | .ok _ =>
        let copyActs : List DockerAction := if input_files.isEmpty then [] else [.copyFiles]
        match env.execResult with
        | .raise msg =>
          (some (dockerErrorResult msg),
            [.create, .start] ++ copyActs ++ [.execRun, .stop, .remove])
        | .ok none =>
          (none, [.create, .start] ++ copyActs ++ [.execRun])
        | .ok (some er) =>
          (some
            { success := decide (er.exit_code = 0)
              output := er.stdoutOpt.getD ""
              error := er.stderrOpt.getD ""
              exit_code := er.exit_code
              output_files := getOutputFilesStep env.archiveResult },
            [.create, .start] ++ copyActs ++ [.execRun, .getArchive, .stop, .remove])

/-! ### `executor.py` — `AICodeExecutor.execute_task`

The orchestrator after code generation: validate, branch on the verdict, and
only in the safe non-permission branch read the uploaded files and call the
sandbox.  The five return-dict shapes of `execute_task` are the five
constructors of `TaskResult`.  The generated code is carried as the parsed
program (the same value handed to `validate` is handed back as
`code_preview`). -/

inductive TaskResult where
  | validationFailed (error : String) (reason : Option String)
  | needsApproval (risk_level : String) (explanation : String)
      (restricted_imports : List String) (code_preview : Program) (message : String)
  | executionFailed (error : String) (details : String) (output : String)
  | executionError (error : String)
  | taskSuccess (output : String) (output_files : List (String × List Nat)) (exit_code : Int)

/-- `AICodeExecutor.execute_task` (executor.py lines 80-154) from the point
where `generated_code` exists.  `readResult` is the outcome of reading the
uploaded files from disk (the inner `try`'s fallible preamble); the sandbox
trace is passed through so the approval branch's non-invocation of the
execution cell is visible as an empty trace. -/
def executeTask (generatedCode : Program)
    (readResult : StepOutcome (List (String × List Nat))) (env : SandboxEnv) :
    Option TaskResult × List DockerAction :=
  if (validate generatedCode).is_safe = false then
    (some (.validationFailed "Generated code failed security validation"
      (validate generatedCode).reason), [])
  else if (validate generatedCode).requires_permission then
    (some (.needsApproval "medium" (validate generatedCode).explanation
      (validate generatedCode).restricted_imports generatedCode
      "This operation requires your permission to proceed"), [])
  else
    match readResult with
    | .raise msg => (some (.executionError ("Docker execution error: " ++ msg)), [])
    | .ok files =>
      match executeCode env files with
      | (none, tr) => (none, tr)
      | (some r, tr) =>
        if r.success = false then
          (some (.executionFailed "Code execution failed" r.error r.output), tr)
        else
          (some (.taskSuccess r.output r.output_files r.exit_code), tr)

/-! ### Statement-side predicates and concrete instances -/

/-- The verdict invariant of the spec: HIGH blocks without approval, MEDIUM
proceeds only with approval, LOW proceeds without approval. -/
def VerdictInvariant (r : ValidationResult) : Prop :=
  (r.risk_level = "high" → r.is_safe = false ∧ r.requires_permission = false) ∧
  (r.risk_level = "medium" → r.is_safe = true ∧ r.requires_permission = true) ∧
  (r.risk_level = "low" → r.is_safe = true ∧ r.requires_permission = false)

/-- The calls actually flagged by the dangerous-builtin scan: a bare-name
invocation of a dangerous primitive other than `open`, or an attribute
invocation of one whose receiver expression is not itself a bare name. -/
def DangerousByScan (f : PyExpr) : Prop :=
  (∃ id, f = .name id ∧ id ∈ DANGEROUS_BUILTINS ∧ id ≠ "open") ∨
  (∃ v a, f = .attr v a ∧ (∀ id, v ≠ .name id) ∧ a ∈ DANGEROUS_BUILTINS ∧ a ≠ "open")

/-- First argument of an `open` call is absent or not a constant (the `else`
branch of `_check_file_operations` that emits the dynamic-path warning). -/
def dynamicFirstArg (args : List PyExpr) : Bool :=
  match args.head? with
  | some (.constStr _) => false
  | some .constOther => false
  | some _ => true
  | none => true

/-- Archive members stored under key `k` by `_get_output_files`: regular
files other than the root `output` entry whose basename is `k`. -/
def relevantKeyed (m : TarMember) (k : String) : Bool :=
  memberStored m && (basename m.name == k)

/-- `a.b.eval(x)`: a dangerous primitive invoked by attribute access (the
receiver `a.b` is itself an attribute, not a bare name). -/
def attrEvalProgram : Program :=
  [.exprStmt (.call (.attr (.attr (.name "a") "b") "eval") [.name "x"])]

/-- `import os` followed by `open("/etc/passwd")` and `open(p)`. -/
def blockedImportOpenProgram : Program :=
  [.importStmt ["os"],
   .exprStmt (.call (.name "open") [.constStr "/etc/passwd"]),
   .exprStmt (.call (.name "open") [.name "p"])]

/-- `open("/etc/passwd")` and `open(p)`, with no imports. -/
def opensOnlyProgram : Program :=
  [.exprStmt (.call (.name "open") [.constStr "/etc/passwd"]),
   .exprStmt (.call (.name "open") [.name "p"])]

/-- `import os, requests` followed by `eval(x)`. -/
def blockedMixProgram : Program :=
  [.importStmt ["os", "requests"],
   .exprStmt (.call (.name "eval") [.name "x"])]

/-- `import requests` alone: classified MEDIUM. -/
def mediumProgram : Program :=
  [.importStmt ["requests"]]

/-- `open("/tmp/input_evil.txt")` and `open("/tmp/outputs/x")`: sibling
paths of the two permitted roots. -/
def siblingPathsProgram : Program :=
  [.exprStmt (.call (.name "open") [.constStr "/tmp/input_evil.txt"]),
   .exprStmt (.call (.name "open") [.constStr "/tmp/outputs/x"])]

/-- Environment where every Docker call succeeds and the executed program
exits 0 with no output. -/
def envAllOk : SandboxEnv :=
  { createResult := .ok ()
    startResult := .ok ()
    copyResult := .ok ()
    execResult := .ok (some { stdoutOpt := none, stderrOpt := none, exit_code := 0 })
    archiveResult := .ok [] }

/-- Environment whose executed program never exits (an infinite loop): the
`exec_run` call blocks forever. -/
def envHang : SandboxEnv :=
  { envAllOk with execResult := .ok none }

/-- Environment where execution succeeds (exit 0, stdout `"done"`) but the
output harvest (`get_archive`) raises. -/
def envHarvestFault : SandboxEnv :=
  { envAllOk with
    execResult := .ok (some { stdoutOpt := some "done", stderrOpt := none, exit_code := 0 })
    archiveResult := .raise "disk full" }

/-- Environment where the `exec_run` call itself raises. -/
def envExecFault : SandboxEnv :=
  { envAllOk with execResult := .raise "boom" }

/-! ## Theorems -/

/-! ### Import-bucket lemmas -/

theorem mem_setAdd {s : List String} {x y : String} :
    y ∈ setAdd s x ↔ y ∈ s ∨ y = x := by
  unfold setAdd
  by_cases h : x ∈ s
  · rw [if_pos h]
    constructor
    · exact Or.inl
    · rintro (hy | rfl)
      · exact hy
      · exact h
  · rw [if_neg h]
    simp only [List.mem_append, List.mem_singleton]

theorem classifyRoot_high_mem (b : ImportBuckets) (x y : String) :
    y ∈ (classifyRoot b x).high ↔ y ∈ b.high ∨ (y = x ∧ x ∈ HIGH_RISK_IMPORTS) := by
  unfold classifyRoot
  by_cases h1 : x ∈ HIGH_RISK_IMPORTS
  · rw [if_pos h1]
    simp only [mem_setAdd]
    tauto
  · rw [if_neg h1]
    have hsame : (if x ∈ MEDIUM_RISK_IMPORTS then { b with med := setAdd b.med x }
        else if x ∈ LOW_RISK_IMPORTS then { b with low := setAdd b.low x }
        else { b with med := setAdd b.med x }).high = b.high := by
      split
      · rfl
      · split <;> rfl
    rw [hsame]
    tauto

theorem foldl_classifyRoot_high_mem (roots : List String) :
    ∀ (b : ImportBuckets) (y : String),
      y ∈ (roots.foldl classifyRoot b).high ↔
        y ∈ b.high ∨ (y ∈ roots ∧ y ∈ HIGH_RISK_IMPORTS) := by
  induction roots with
  | nil =>
    intro b y
    simp
  | cons x xs ih =>
    intro b y
    rw [List.foldl_cons, ih, classifyRoot_high_mem]
    constructor
    · rintro ((hb | ⟨rfl, hx⟩) | ⟨hxs, hy⟩)
      · exact Or.inl hb
      · exact Or.inr ⟨List.mem_cons_self _ _, hx⟩
      · exact Or.inr ⟨List.mem_cons_of_mem _ hxs, hy⟩
    · rintro (hb | ⟨hmem, hy⟩)
      · exact Or.inl (Or.inl hb)
      · rcases List.mem_cons.mp hmem with rfl | hxs
        · exact Or.inl (Or.inr ⟨rfl, hy⟩)
        · exact Or.inr ⟨hxs, hy⟩

theorem collectImports_high_mem (p : Program) (y : String) :
    y ∈ (collectImports p).high ↔ y ∈ rootsOf p ∧ y ∈ HIGH_RISK_IMPORTS := by
  unfold collectImports
  rw [foldl_classifyRoot_high_mem]
  simp

/-! ### Shape lemmas for the three validation stages -/

theorem checkImports_cases (p : Program) :
    ((checkImports p).is_safe = false ∧ (checkImports p).risk_level = "high" ∧
      (checkImports p).requires_permission = false) ∨
    ((checkImports p).is_safe = true ∧ (checkImports p).risk_level = "medium" ∧
      (checkImports p).requires_permission = true) ∨
    ((checkImports p).is_safe = true ∧ (checkImports p).risk_level = "low" ∧
      (checkImports p).requires_permission = false) := by
  unfold checkImports
  split
  · exact Or.inl ⟨rfl, rfl, rfl⟩
  · split
    · exact Or.inr (Or.inl ⟨rfl, rfl, rfl⟩)
    · exact Or.inr (Or.inr ⟨rfl, rfl, rfl⟩)

theorem checkDangerousBuiltins_cases (p : Program) :
    ((checkDangerousBuiltins p).is_safe = true ∧
      (checkDangerousBuiltins p).risk_level = "low" ∧
      (checkDangerousBuiltins p).requires_permission = false) ∨
    ((checkDangerousBuiltins p).is_safe = false ∧
      (checkDangerousBuiltins p).risk_level = "high" ∧
      (checkDangerousBuiltins p).requires_permission = false) := by
  unfold checkDangerousBuiltins
  split
  · exact Or.inl ⟨rfl, rfl, rfl⟩
  · exact Or.inr ⟨rfl, rfl, rfl⟩

theorem checkFileOperations_cases (p : Program) :
    ((checkFileOperations p).is_safe = true ∧
      (checkFileOperations p).risk_level = "low" ∧
      (checkFileOperations p).requires_permission = false) ∨
    ((checkFileOperations p).is_safe = false ∧
      (checkFileOperations p).risk_level = "high" ∧
      (checkFileOperations p).requires_permission = false) := by
  unfold checkFileOperations
  split
  · exact Or.inl ⟨rfl, rfl, rfl⟩
  · exact Or.inr ⟨rfl, rfl, rfl⟩

theorem validate_eq_checkImports (p : Program)
    (hI : (checkImports p).is_safe = false) : validate p = checkImports p := by
  unfold validate
  rw [if_pos hI]

theorem validate_eq_checkDangerousBuiltins (p : Program)
    (hI : ¬(checkImports p).is_safe = false)
    (hB : (checkDangerousBuiltins p).is_safe = false) :
    validate p = checkDangerousBuiltins p := by
  unfold validate
  rw [if_neg hI, if_pos hB]

theorem validate_eq_checkFileOperations (p : Program)
    (hI : ¬(checkImports p).is_safe = false)
    (hB : ¬(checkDangerousBuiltins p).is_safe = false)
    (hF : (checkFileOperations p).is_safe = false) :
    validate p = checkFileOperations p := by
  unfold validate
  rw [if_neg hI, if_neg hB, if_pos hF]

theorem validate_all_safe (p : Program)
    (hI : ¬(checkImports p).is_safe = false)
    (hB : ¬(checkDangerousBuiltins p).is_safe = false)
    (hF : ¬(checkFileOperations p).is_safe = false) :
    validate p =
      { is_safe := true
        risk_level := (checkImports p).risk_level
        requires_permission := (checkImports p).requires_permission
        explanation := (checkImports p).explanation
        code_preview := (checkImports p).code_preview
        restricted_imports := (checkImports p).restricted_imports
        allowed_imports := (checkImports p).allowed_imports
        warnings := (checkImports p).warnings ++ (checkDangerousBuiltins p).warnings ++
          (checkFileOperations p).warnings } := by
  unfold validate
  rw [if_neg hI, if_neg hB, if_neg hF]

theorem validate_cases (p : Program) :
    ((validate p).is_safe = false ∧ (validate p).risk_level = "high" ∧
      (validate p).requires_permission = false) ∨
    ((validate p).is_safe = true ∧ (validate p).risk_level = "medium" ∧
      (validate p).requires_permission = true) ∨
    ((validate p).is_safe = true ∧ (validate p).risk_level = "low" ∧
      (validate p).requires_permission = false) := by
  by_cases hI : (checkImports p).is_safe = false
  · have hv := validate_eq_checkImports p hI
    rcases checkImports_cases p with ⟨h1, h2, h3⟩ | ⟨h1, h2, h3⟩ | ⟨h1, h2, h3⟩
    · exact Or.inl ⟨hv ▸ h1, hv ▸ h2, hv ▸ h3⟩
    · exact absurd (h1.symm.trans hI) (by decide)
    · exact absurd (h1.symm.trans hI) (by decide)
  · by_cases hB : (checkDangerousBuiltins p).is_safe = false
    · have hv := validate_eq_checkDangerousBuiltins p hI hB
      rcases checkDangerousBuiltins_cases p with ⟨h1, h2, h3⟩ | ⟨h1, h2, h3⟩
      · exact absurd (h1.symm.trans hB) (by decide)
      · exact Or.inl ⟨hv ▸ h1, hv ▸ h2, hv ▸ h3⟩
    · by_cases hF : (checkFileOperations p).is_safe = false
      · have hv := validate_eq_checkFileOperations p hI hB hF
        rcases checkFileOperations_cases p with ⟨h1, h2, h3⟩ | ⟨h1, h2, h3⟩
        · exact absurd (h1.symm.trans hF) (by decide)
        · exact Or.inl ⟨hv ▸ h1, hv ▸ h2, hv ▸ h3⟩
      · have hv := validate_all_safe p hI hB hF
        rcases checkImports_cases p with ⟨h1, h2, h3⟩ | ⟨h1, h2, h3⟩ | ⟨h1, h2, h3⟩
        · exact absurd h1 hI
        · refine Or.inr (Or.inl ⟨?_, ?_, ?_⟩) <;> rw [hv]
          · exact h2
          · exact h3
        · refine Or.inr (Or.inr ⟨?_, ?_, ?_⟩) <;> rw [hv]
          · exact h2
          · exact h3

theorem verdict_invariant_of_cases {r : ValidationResult}
    (h : (r.is_safe = false ∧ r.risk_level = "high" ∧ r.requires_permission = false) ∨
      (r.is_safe = true ∧ r.risk_level = "medium" ∧ r.requires_permission = true) ∨
      (r.is_safe = true ∧ r.risk_level = "low" ∧ r.requires_permission = false)) :
    VerdictInvariant r := by
  rcases h with ⟨h1, h2, h3⟩ | ⟨h1, h2, h3⟩ | ⟨h1, h2, h3⟩ <;>
    refine ⟨fun hl => ?_, fun hl => ?_, fun hl => ?_⟩ <;>
    first
      | exact ⟨h1, h3⟩
      | exact absurd (h2.symm.trans hl) (by decide)

theorem validate_medium_fields (p : Program) (h : (validate p).risk_level = "medium") :
    (validate p).is_safe = true ∧ (validate p).requires_permission = true := by
  rcases validate_cases p with ⟨h1, h2, h3⟩ | ⟨h1, h2, h3⟩ | ⟨h1, h2, h3⟩
  · exact absurd (h2.symm.trans h) (by decide)
  · exact ⟨h1, h3⟩
  · exact absurd (h2.symm.trans h) (by decide)

/-! ### Claim C6 -/

/-- C6: every `ValidationResult` produced by `CodeValidator.validate`
(including the syntax-error and generic-exception branches) satisfies the
verdict invariant: `high` implies `is_safe = false` and
`requires_permission = false`; `medium` implies `is_safe = true` and
`requires_permission = true`; `low` implies `is_safe = true` and
`requires_permission = false`. -/
theorem C6_verdict_invariant (p : Program) (e1 e2 : String) :
    VerdictInvariant (validate p) ∧ VerdictInvariant (syntaxErrorResult e1) ∧
      VerdictInvariant (validationErrorResult e2) := by
  refine ⟨verdict_invariant_of_cases (validate_cases p), ?_, ?_⟩ <;>
    exact verdict_invariant_of_cases (Or.inl ⟨rfl, rfl, rfl⟩)

/-- C6 witness: the invariant instantiated at a MEDIUM-classified program. -/
theorem C6_verdict_invariant_witness :
    (validate mediumProgram).is_safe = true ∧
      (validate mediumProgram).requires_permission = true :=
  (C6_verdict_invariant mediumProgram "" "").1.2.1 rfl

/-! ### Claim C5 -/

/-- C5: a program with at least one import whose root module is in the
always-blocked set makes `validate` return the import stage's HIGH verdict
(`is_safe = false`, no permission path), with the offending root among
`restricted_imports`, whatever else the program contains; the returned
result IS the import-stage result, so no later stage can downgrade it. -/
theorem C5_blocked_import_dominates (p : Program) (r : String)
    (h1 : r ∈ rootsOf p) (h2 : r ∈ HIGH_RISK_IMPORTS) :
    validate p = checkImports p ∧ (validate p).is_safe = false ∧
      (validate p).risk_level = "high" ∧ (validate p).requires_permission = false ∧
      r ∈ (validate p).restricted_imports := by
  have hmem : r ∈ (collectImports p).high := (collectImports_high_mem p r).mpr ⟨h1, h2⟩
  have hne : (collectImports p).high ≠ [] := List.ne_nil_of_mem hmem
  have hci : (checkImports p).is_safe = false := by
    unfold checkImports
    rw [if_pos hne]
  have hrl : (checkImports p).risk_level = "high" := by
    unfold checkImports
    rw [if_pos hne]
  have hrp : (checkImports p).requires_permission = false := by
    unfold checkImports
    rw [if_pos hne]
  have hri : r ∈ (checkImports p).restricted_imports := by
    unfold checkImports
    rw [if_pos hne]
    exact hmem
  have hv : validate p = checkImports p := by
    unfold validate
    rw [if_pos hci]
  exact ⟨hv, hv ▸ hci, hv ▸ hrl, hv ▸ hrp, hv ▸ hri⟩

/-- C5 witness: `import os, requests` plus an `eval` call is blocked HIGH
with `os` among the flagged imports. -/
theorem C5_blocked_import_dominates_witness :
    (validate blockedMixProgram).is_safe = false ∧
      "os" ∈ (validate blockedMixProgram).restricted_imports := by
  have h := C5_blocked_import_dominates blockedMixProgram "os" (by decide) (by decide)
  exact ⟨h.2.1, h.2.2.2.2⟩

/-! ### Claim C8 -/

/-- C8: for a program classified MEDIUM, `execute_task` returns the
needs-approval result carrying the full generated code as `code_preview`
together with the validator's explanation and restricted imports, and the
Docker trace is empty: the execution cell is never invoked in this branch. -/
theorem C8_medium_returns_needs_approval (code : Program)
    (readResult : StepOutcome (List (String × List Nat))) (env : SandboxEnv)
    (h : (validate code).risk_level = "medium") :
    executeTask code readResult env =
      (some (.needsApproval "medium" (validate code).explanation
        (validate code).restricted_imports code
        "This operation requires your permission to proceed"), []) := by
  obtain ⟨hsafe, hperm⟩ := validate_medium_fields code h
  unfold executeTask
  rw [hsafe, hperm]
  simp

/-- C8 witness: the needs-approval branch at `import requests`. -/
theorem C8_medium_returns_needs_approval_witness :
    executeTask mediumProgram (.ok []) envAllOk =
      (some (.needsApproval "medium" (validate mediumProgram).explanation
        (validate mediumProgram).restricted_imports mediumProgram
        "This operation requires your permission to proceed"), []) :=
  C8_medium_returns_needs_approval mediumProgram (.ok []) envAllOk rfl

/-! ### Claim C9 -/

/-- C9: the file-path legality test is a pure string-prefix test: a lone
`open` call with literal argument `s` passes the file check exactly when `s`
starts with the characters `/tmp/input` or `/tmp/output`, so the sibling
paths `/tmp/input_evil.txt` and `/tmp/outputs/x` are accepted by the whole
validator with no violation and no warning. -/
theorem C9_prefix_test (s : String) :
    (checkFileOperations [.exprStmt (.call (.name "open") [.constStr s])]).is_safe =
      (strStartsWith s "/tmp/input" || strStartsWith s "/tmp/output") ∧
    (validate siblingPathsProgram).is_safe = true ∧
    (validate siblingPathsProgram).risk_level = "low" ∧
    (validate siblingPathsProgram).warnings = [] := by
  refine ⟨?_, rfl, rfl, rfl⟩
  cases h1 : strStartsWith s "/tmp/input" <;> cases h2 : strStartsWith s "/tmp/output" <;>
    simp [checkFileOperations, fileViolations, fileWarnings, programCalls, stmtCalls,
      PyExpr.calls, callsList, fileViolationOf, fileWarningOf, fileOpFuncName, h1, h2]

/-! ### Claim C3 -/

theorem dangerous_builtins_nonempty : ∀ x ∈ DANGEROUS_BUILTINS, x ≠ "" := by decide

theorem builtinViolationOf_ne_none_iff (c : PyExpr × List PyExpr) :
    builtinViolationOf c ≠ none ↔ DangerousByScan c.1 := by
  obtain ⟨f, args⟩ := c
  show builtinViolationOf (f, args) ≠ none ↔ DangerousByScan f
  cases f with
  | name id =>
    constructor
    · intro h
      by_cases hx : id ≠ "" ∧ id ∈ DANGEROUS_BUILTINS ∧ id ≠ "open"
      · exact Or.inl ⟨id, rfl, hx.2.1, hx.2.2⟩
      · exact absurd (by simp [builtinViolationOf, builtinsFuncName, hx]) h
    · rintro (⟨id', heq, hmem, hop⟩ | ⟨v, a, heq, _, _, _⟩)
      · injection heq with h
        subst h
        simp [builtinViolationOf, builtinsFuncName, hmem, hop,
          dangerous_builtins_nonempty _ hmem]
      · exact PyExpr.noConfusion heq
  | attr v a =>
    cases v with
    | name vid =>
      constructor
      · intro h
        exact absurd (by simp [builtinViolationOf, builtinsFuncName]) h
      · rintro (⟨id', heq, _, _⟩ | ⟨v', a', heq, hnot, _, _⟩)
        · exact PyExpr.noConfusion heq
        · injection heq with hv ha
          exact absurd hv.symm (hnot vid)
    | attr w b =>
      constructor
      · intro h
        by_cases hx : a ≠ "" ∧ a ∈ DANGEROUS_BUILTINS ∧ a ≠ "open"
        · exact Or.inr ⟨.attr w b, a, rfl, fun id heq => PyExpr.noConfusion heq,
            hx.2.1, hx.2.2⟩
        · exact absurd (by simp [builtinViolationOf, builtinsFuncName, hx]) h
      · rintro (⟨id', heq, _, _⟩ | ⟨v', a', heq, hnot, hmem, hop⟩)
        · exact PyExpr.noConfusion heq
        · injection heq with hv ha
          subst hv; subst ha
          simp [builtinViolationOf, builtinsFuncName, hmem, hop,
            dangerous_builtins_nonempty _ hmem]
    | constStr sv =>
      constructor
      · intro h
        by_cases hx : a ≠ "" ∧ a ∈ DANGEROUS_BUILTINS ∧ a ≠ "open"
        · exact Or.inr ⟨.constStr sv, a, rfl, fun id heq => PyExpr.noConfusion heq,
            hx.2.1, hx.2.2⟩
        · exact absurd (by simp [builtinViolationOf, builtinsFuncName, hx]) h
      · rintro (⟨id', heq, _, _⟩ | ⟨v', a', heq, hnot, hmem, hop⟩)
        · exact PyExpr.noConfusion heq
        · injection heq with hv ha
          subst hv; subst ha
          simp [builtinViolationOf, builtinsFuncName, hmem, hop,
            dangerous_builtins_nonempty _ hmem]
    | constOther =>
      constructor
      · intro h
        by_cases hx : a ≠ "" ∧ a ∈ DANGEROUS_BUILTINS ∧ a ≠ "open"
        · exact Or.inr ⟨.constOther, a, rfl, fun id heq => PyExpr.noConfusion heq,
            hx.2.1, hx.2.2⟩
        · exact absurd (by simp [builtinViolationOf, builtinsFuncName, hx]) h
      · rintro (⟨id', heq, _, _⟩ | ⟨v', a', heq, hnot, hmem, hop⟩)
        · exact PyExpr.noConfusion heq
        · injection heq with hv ha
          subst hv; subst ha
          simp [builtinViolationOf, builtinsFuncName, hmem, hop,
            dangerous_builtins_nonempty _ hmem]
    | call g gargs =>
      constructor
      · intro h
        by_cases hx : a ≠ "" ∧ a ∈ DANGEROUS_BUILTINS ∧ a ≠ "open"
        · exact Or.inr ⟨.call g gargs, a, rfl, fun id heq => PyExpr.noConfusion heq,
            hx.2.1, hx.2.2⟩
        · exact absurd (by simp [builtinViolationOf, builtinsFuncName, hx]) h
      · rintro (⟨id', heq, _, _⟩ | ⟨v', a', heq, hnot, hmem, hop⟩)
        · exact PyExpr.noConfusion heq
        · injection heq with hv ha
          subst hv; subst ha
          simp [builtinViolationOf, builtinsFuncName, hmem, hop,
            dangerous_builtins_nonempty _ hmem]
  | constStr sv =>
    constructor
    · intro h
      exact absurd (by simp [builtinViolationOf, builtinsFuncName]) h
    · rintro (⟨id', heq, _, _⟩ | ⟨v', a', heq, _, _, _⟩) <;> exact PyExpr.noConfusion heq
  | constOther =>
    constructor
    · intro h
      exact absurd (by simp [builtinViolationOf, builtinsFuncName]) h
    · rintro (⟨id', heq, _, _⟩ | ⟨v', a', heq, _, _, _⟩) <;> exact PyExpr.noConfusion heq
  | call g gargs =>
    constructor
    · intro h
      exact absurd (by simp [builtinViolationOf, builtinsFuncName]) h
    · rintro (⟨id', heq, _, _⟩ | ⟨v', a', heq, _, _, _⟩) <;> exact PyExpr.noConfusion heq

theorem builtinViolations_ne_nil_iff (p : Program) :
    builtinViolations p ≠ [] ↔ ∃ c ∈ programCalls p, DangerousByScan c.1 := by
  unfold builtinViolations
  rw [Ne, List.filterMap_eq_nil_iff]
  push_neg
  constructor
  · rintro ⟨c, hc, hne⟩
    exact ⟨c, hc, (builtinViolationOf_ne_none_iff c).mp hne⟩
  · rintro ⟨c, hc, hd⟩
    exact ⟨c, hc, (builtinViolationOf_ne_none_iff c).mpr hd⟩

/-- C3 counterexample: the attribute-access invocation `a.b.eval(x)` — whose
receiver `a.b` is not a bare name — IS flagged by the dangerous-builtin scan,
so the claim that attribute-access invocations are never flagged by this scan
is false. -/
theorem C3_attr_receiver_flagged :
    (checkDangerousBuiltins attrEvalProgram).is_safe = false ∧
    (validate attrEvalProgram).is_safe = false ∧
    (validate attrEvalProgram).risk_level = "high" ∧
    (validate attrEvalProgram).reason =
      some "File operation violations: Dangerous builtin function call detected: eval" :=
  ⟨rfl, rfl, rfl, rfl⟩

/-- C3 amended: the dangerous-builtin scan flags exactly the calls that
invoke a dangerous primitive (other than `open`) either as a bare name or as
an attribute access whose receiver expression is not itself a bare name;
attribute invocations directly on a bare name (`df.eval(...)`) are the only
attribute form exempted. -/
theorem C3_amended_scan_characterization (p : Program) :
    (checkDangerousBuiltins p).is_safe = false ↔
      ∃ c ∈ programCalls p, DangerousByScan c.1 := by
  rw [← builtinViolations_ne_nil_iff]
  unfold checkDangerousBuiltins
  by_cases h : builtinViolations p = ([] : List String)
  · rw [if_pos h]
    simp [h]
  · rw [if_neg h]
    simp [h]

/-! ### Claim C4 -/

theorem checkFileOperations_is_safe_false_iff (p : Program) :
    (checkFileOperations p).is_safe = false ↔ fileViolations p ≠ [] := by
  unfold checkFileOperations
  by_cases h : fileViolations p = []
  · rw [if_pos h]
    simp [h]
  · rw [if_neg h]
    simp [h]

theorem checkFileOperations_warnings (p : Program) :
    (checkFileOperations p).warnings = fileWarnings p := by
  unfold checkFileOperations
  split <;> rfl

theorem fileViolationOf_unauthorized {f : PyExpr} {args : List PyExpr} {s : String}
    (hn : fileOpFuncName f = some "open") (ha : args.head? = some (.constStr s))
    (h1 : strStartsWith s "/tmp/input" = false)
    (h2 : strStartsWith s "/tmp/output" = false) :
    fileViolationOf (f, args) = some (unauthorizedFileMsg s) := by
  simp [fileViolationOf, hn, ha, h1, h2]

theorem fileWarningOf_dynamic {f : PyExpr} {args : List PyExpr}
    (hn : fileOpFuncName f = some "open") (hd : dynamicFirstArg args = true) :
    fileWarningOf (f, args) = some dynamicPathWarning := by
  unfold dynamicFirstArg at hd
  cases ha : args.head? with
  | none => simp [fileWarningOf, hn, ha]
  | some a =>
    rw [ha] at hd
    cases a <;> simp_all [fileWarningOf, hn]

/-- C4 counterexample: in a program that also contains `import os`, the bad
literal call `open("/etc/passwd")` still yields a HIGH verdict, but the
rationale names the blocked import, not the offending path, and the dynamic
`open(p)` call's diagnostic warning does not appear in the result. -/
theorem C4_earlier_stage_masks_path :
    (validate blockedImportOpenProgram).is_safe = false ∧
    (validate blockedImportOpenProgram).reason =
      some "HIGH RISK imports detected (always blocked): os" ∧
    ¬ ("/etc/passwd".toList <:+:
      "HIGH RISK imports detected (always blocked): os".toList) ∧
    (validate blockedImportOpenProgram).warnings = [] :=
  ⟨rfl, rfl, by decide, rfl⟩

/-- C4 amended: when the import and dangerous-builtin stages pass, an `open`
call with a literal string first argument outside the two permitted prefixes
makes `validate` return HIGH (`is_safe = false`) with a reason naming the
offending path, and an `open` call with an absent or non-constant first
argument contributes the dynamic-path diagnostic to the returned warnings;
when an earlier stage already blocked, `validate` still returns HIGH but its
rationale names that stage's findings instead. -/
theorem C4_amended_file_check (p : Program) (f : PyExpr) (args : List PyExpr) (s : String)
    (hImp : (checkImports p).is_safe = true)
    (hB : (checkDangerousBuiltins p).is_safe = true) :
    ((f, args) ∈ programCalls p → fileOpFuncName f = some "open" →
      args.head? = some (.constStr s) →
      strStartsWith s "/tmp/input" = false → strStartsWith s "/tmp/output" = false →
      (validate p).is_safe = false ∧ (validate p).risk_level = "high" ∧
        unauthorizedFileMsg s ∈ fileViolations p ∧
        (validate p).reason = some ("File operation violations: " ++
          String.intercalate ", " (fileViolations p))) ∧
    ((f, args) ∈ programCalls p → fileOpFuncName f = some "open" →
      dynamicFirstArg args = true →
      dynamicPathWarning ∈ (validate p).warnings) := by
  have hI : ¬(checkImports p).is_safe = false := by simp [hImp]
  have hBn : ¬(checkDangerousBuiltins p).is_safe = false := by simp [hB]
  constructor
  · intro hmem hn ha h1 h2
    have hv : fileViolationOf (f, args) = some (unauthorizedFileMsg s) :=
      fileViolationOf_unauthorized hn ha h1 h2
    have hvm : unauthorizedFileMsg s ∈ fileViolations p :=
      List.mem_filterMap.mpr ⟨(f, args), hmem, hv⟩
    have hne : fileViolations p ≠ [] := List.ne_nil_of_mem hvm
    have hF : (checkFileOperations p).is_safe = false :=
      (checkFileOperations_is_safe_false_iff p).mpr hne
    have hval := validate_eq_checkFileOperations p hI hBn hF
    refine ⟨by rw [hval]; exact hF, ?_, hvm, ?_⟩
    · rw [hval]
      rcases checkFileOperations_cases p with ⟨h1', _, _⟩ | ⟨_, h2', _⟩
      · exact absurd (h1'.symm.trans hF) (by decide)
      · exact h2'
    · rw [hval]
      unfold checkFileOperations
      rw [if_neg hne]
  · intro hmem hn hd
    have hw : fileWarningOf (f, args) = some dynamicPathWarning :=
      fileWarningOf_dynamic hn hd
    have hwm : dynamicPathWarning ∈ fileWarnings p :=
      List.mem_filterMap.mpr ⟨(f, args), hmem, hw⟩
    by_cases hF : (checkFileOperations p).is_safe = false
    · have hval := validate_eq_checkFileOperations p hI hBn hF
      rw [hval, checkFileOperations_warnings]
      exact hwm
    · have hval := validate_all_safe p hI hBn hF
      rw [hval]
      exact List.mem_append.mpr (Or.inr (checkFileOperations_warnings p ▸ hwm))

/-- C4 witness: a program with `open("/etc/passwd")` and `open(p)` and no
imports is blocked HIGH and carries the dynamic-path warning. -/
theorem C4_amended_file_check_witness :
    (validate opensOnlyProgram).is_safe = false ∧
      dynamicPathWarning ∈ (validate opensOnlyProgram).warnings := by
  have h1 := C4_amended_file_check opensOnlyProgram (.name "open")
    [.constStr "/etc/passwd"] "/etc/passwd" rfl rfl
  have h2 := C4_amended_file_check opensOnlyProgram (.name "open")
    [.name "p"] "" rfl rfl
  refine ⟨(h1.1 ?_ rfl rfl rfl rfl).1, h2.2 ?_ rfl rfl⟩
  · exact List.Mem.head _
  · exact List.Mem.tail _ (List.Mem.head _)

/-! ### Claim C1 -/

/-- C1 (refuting the claimed behaviour, exhibiting the code bug): with every
Docker call succeeding but the invoked program never exiting (an infinite
loop), `execute_code` never returns — the first component is `none` and the
cleanup actions are never reached — even though `TIMEOUT_SECONDS = 120` is
configured: the `exec_run` invocation passes no timeout at all, so nothing
forcibly terminates a hung program. -/
theorem C1_no_timeout_infinite_loop_hangs :
    (executeCode envHang [("data.xlsx", [80])]).1 = none ∧
    (executeCode envHang [("data.xlsx", [80])]).2 =
      [DockerAction.create, DockerAction.start, DockerAction.copyFiles,
        DockerAction.execRun] ∧
    TIMEOUT_SECONDS = 120 :=
  ⟨rfl, rfl, rfl⟩

/-! ### Claim C2 -/

/-- C2: whenever the container was created and `execute_code` returns at all
(normal completion, or an exception raised during start, input staging, code
execution — output-harvest exceptions are swallowed inside the harvest
step), the performed Docker operations end with `stop` followed by `remove`:
the container is stopped and removed on every returning exit path. -/
theorem C2_cleanup_on_return (env : SandboxEnv) (files : List (String × List Nat))
    (r : ExecutionResult) (tr : List DockerAction)
    (hc : env.createResult = .ok ())
    (h : executeCode env files = (some r, tr)) :
    ∃ pre, tr = pre ++ [DockerAction.stop, DockerAction.remove] := by
  unfold executeCode at h
  rw [hc] at h
  cases hs : env.startResult with
  | raise msg =>
    rw [hs] at h
    rw [Prod.ext_iff] at h
    exact ⟨[.create], h.2.symm⟩
  | ok u =>
    rw [hs] at h
    cases hemp : files.isEmpty with
    | true =>
      simp only [hemp, if_true] at h
      cases hx : env.execResult with
      | raise msg =>
        rw [hx] at h
        rw [Prod.ext_iff] at h
        exact ⟨[.create, .start, .execRun], h.2.symm⟩
      | ok o =>
        cases o with
        | none =>
          rw [hx] at h
          rw [Prod.ext_iff] at h
          exact absurd h.1 (by simp)
        | some er =>
          rw [hx] at h
          rw [Prod.ext_iff] at h
          exact ⟨[.create, .start, .execRun, .getArchive], h.2.symm⟩
    | false =>
      simp only [hemp, if_false] at h
      cases hcp : env.copyResult with
      | raise msg =>
        rw [hcp] at h
        rw [Prod.ext_iff] at h
        exact ⟨[.create, .start], h.2.symm⟩
      | ok v =>
        rw [hcp] at h
        cases hx : env.execResult with
        | raise msg =>
          rw [hx] at h
          rw [Prod.ext_iff] at h
          exact ⟨[.create, .start, .copyFiles, .execRun], h.2.symm⟩
        | ok o =>
          cases o with
          | none =>
            rw [hx] at h
            rw [Prod.ext_iff] at h
            exact absurd h.1 (by simp)
          | some er =>
            rw [hx] at h
            rw [Prod.ext_iff] at h
            exact ⟨[.create, .start, .copyFiles, .execRun, .getArchive], h.2.symm⟩

/-- C2 witness: the all-success run ends with stop and remove. -/
theorem C2_cleanup_on_return_witness :
    ∃ pre, (executeCode envAllOk [("data.xlsx", [1])]).2 =
      pre ++ [DockerAction.stop, DockerAction.remove] :=
  C2_cleanup_on_return envAllOk [("data.xlsx", [1])]
    { success := true, output := "", error := "", exit_code := 0, output_files := [] }
    ((executeCode envAllOk [("data.xlsx", [1])]).2) rfl rfl

/-! ### Claim C7 -/

/-- C7 counterexample: when execution succeeds (exit 0) but the output
harvest raises, `execute_code` returns `success = true` with an empty error
and an empty output-file mapping — the harvest failure is NOT captured as a
failed outcome, contrary to the claim. -/
theorem C7_harvest_fault_swallowed :
    (executeCode envHarvestFault [("in.xlsx", [1])]).1 =
      some { success := true
             output := "done"
             error := ""
             exit_code := 0
             output_files := [] } :=
  rfl

/-- C7 amended: once creation and start succeeded, `execute_code` yields a
structured result rather than an exception: a raise during input staging or
during `exec_run` is captured as `success = false` with the diagnostic
`Docker execution error:` text, while a raise during output harvest is
swallowed inside `_get_output_files` — the result keeps the execution step's
success, output and error, and carries an empty output-file mapping. -/
theorem C7_amended_structured_outcomes (env : SandboxEnv)
    (files : List (String × List Nat)) (msg : String)
    (hc : env.createResult = .ok ()) (hs : env.startResult = .ok ()) :
    (((files.isEmpty = false ∧ env.copyResult = .raise msg) ∨
        ((files.isEmpty = true ∨ env.copyResult = .ok ()) ∧
          env.execResult = .raise msg)) →
      (executeCode env files).1 = some (dockerErrorResult msg)) ∧
    (∀ er : ExecRunResult, (files.isEmpty = true ∨ env.copyResult = .ok ()) →
      env.execResult = .ok (some er) → env.archiveResult = .raise msg →
      (executeCode env files).1 = some
        { success := decide (er.exit_code = 0)
          output := er.stdoutOpt.getD ""
          error := er.stderrOpt.getD ""
          exit_code := er.exit_code
          output_files := [] }) := by
  constructor
  · rintro (⟨hemp, hcp⟩ | ⟨hcopyok, hex⟩)
    · unfold executeCode
      rw [hc, hs]
      simp [hemp, hcp]
    · unfold executeCode
      rw [hc, hs]
      rcases hcopyok with hemp | hcp
      · simp [hemp, hex]
      · cases hemp : files.isEmpty <;> simp [hcp, hex, hemp]
  · intro er hcopyok hex har
    unfold executeCode
    rw [hc, hs]
    rcases hcopyok with hemp | hcp
    · simp [hemp, hex, har, getOutputFilesStep]
    · cases hemp : files.isEmpty <;> simp [hcp, hex, har, hemp, getOutputFilesStep]

/-- C7 witness: a raise inside `exec_run` is captured as a structured error
result. -/
theorem C7_amended_structured_outcomes_witness :
    (executeCode envExecFault [("a.xlsx", [1])]).1 =
      some (dockerErrorResult "boom") :=
  (C7_amended_structured_outcomes envExecFault [("a.xlsx", [1])] "boom" rfl rfl).1
    (Or.inr ⟨Or.inr rfl, rfl⟩)

/-! ### Claim C10 -/

theorem lookup_dictInsert_self (d : List (String × List Nat)) (k : String) (v : List Nat) :
    List.lookup k (dictInsert d k v) = some v := by
  induction d with
  | nil => simp [dictInsert, List.lookup]
  | cons kv rest ih =>
    obtain ⟨a, b⟩ := kv
    unfold dictInsert
    by_cases h : a = k
    · subst h
      simp [List.lookup]
    · rw [if_neg h]
      have hb : (k == a) = false := beq_eq_false_iff_ne.mpr (fun he => h he.symm)
      simp [List.lookup, hb, ih]

theorem lookup_dictInsert_ne (d : List (String × List Nat)) (k k' : String)
    (v : List Nat) (h : k' ≠ k) :
    List.lookup k' (dictInsert d k v) = List.lookup k' d := by
  induction d with
  | nil =>
    have hb : (k' == k) = false := beq_eq_false_iff_ne.mpr h
    simp [dictInsert, List.lookup, hb]
  | cons kv rest ih =>
    obtain ⟨a, b⟩ := kv
    unfold dictInsert
    by_cases ha : a = k
    · subst ha
      have hb : (k' == a) = false := beq_eq_false_iff_ne.mpr h
      simp [List.lookup, hb]
    · rw [if_neg ha]
      by_cases hka : k' = a
      · subst hka
        simp [List.lookup]
      · have hb : (k' == a) = false := beq_eq_false_iff_ne.mpr hka
        simp [List.lookup, hb, ih]

theorem mem_keys_dictInsert (d : List (String × List Nat)) (k : String) (v : List Nat)
    (x : String) :
    x ∈ (dictInsert d k v).map Prod.fst ↔ x ∈ d.map Prod.fst ∨ x = k := by
  induction d with
  | nil => simp [dictInsert]
  | cons kv rest ih =>
    obtain ⟨a, b⟩ := kv
    unfold dictInsert
    by_cases ha : a = k
    · subst ha
      simp
      tauto
    · rw [if_neg ha]
      simp [ih]
      tauto

theorem nodup_keys_dictInsert (d : List (String × List Nat)) (k : String) (v : List Nat)
    (h : (d.map Prod.fst).Nodup) :
    ((dictInsert d k v).map Prod.fst).Nodup := by
  induction d with
  | nil => simp [dictInsert]
  | cons kv rest ih =>
    obtain ⟨a, b⟩ := kv
    simp only [List.map_cons, List.nodup_cons] at h
    unfold dictInsert
    by_cases ha : a = k
    · subst ha
      rw [if_pos rfl]
      simp only [List.map_cons, List.nodup_cons]
      exact h
    · rw [if_neg ha]
      simp only [List.map_cons, List.nodup_cons]
      refine ⟨?_, ih h.2⟩
      rw [mem_keys_dictInsert]
      rintro (hx | rfl)
      · exact h.1 hx
      · exact ha rfl

theorem nodup_keys_foldl_storeStep (ms : List TarMember) :
    ∀ d : List (String × List Nat), (d.map Prod.fst).Nodup →
      ((ms.foldl storeStep d).map Prod.fst).Nodup := by
  induction ms with
  | nil =>
    intro d h
    simpa using h
  | cons m ms ih =>
    intro d h
    rw [List.foldl_cons]
    apply ih
    unfold storeStep
    by_cases hst : memberStored m = true
    · rw [if_pos hst]
      exact nodup_keys_dictInsert _ _ _ h
    · rw [if_neg hst]
      exact h

theorem foldl_storeStep_lookup (ms : List TarMember) :
    ∀ (d : List (String × List Nat)) (k : String),
      List.lookup k (ms.foldl storeStep d) =
        ((ms.filter (fun m => relevantKeyed m k)).getLast?).elim
          (List.lookup k d) (fun m => some m.content) := by
  induction ms with
  | nil =>
    intro d k
    simp
  | cons m ms ih =>
    intro d k
    rw [List.foldl_cons, ih]
    by_cases hst : memberStored m = true
    · by_cases hbk : basename m.name = k
      · have hrk : relevantKeyed m k = true := by
          simp [relevantKeyed, hst, hbk]
        have hstep : storeStep d m = dictInsert d k m.content := by
          unfold storeStep
          rw [if_pos hst, hbk]
        rw [hstep]
        simp only [List.filter_cons, hrk, if_true, List.getLast?_cons]
        cases hl : (ms.filter (fun m => relevantKeyed m k)).getLast? with
        | none => simp [hl, lookup_dictInsert_self]
        | some m2 => simp [hl]
      · have hrk : relevantKeyed m k = false := by
          simp [relevantKeyed, hbk]
        have hstep : List.lookup k (storeStep d m) = List.lookup k d := by
          unfold storeStep
          rw [if_pos hst]
          exact lookup_dictInsert_ne _ _ _ _ (fun he => hbk he.symm)
        rw [hstep]
        simp [List.filter_cons, hrk]
    · have hrk : relevantKeyed m k = false := by
        simp [relevantKeyed, hst]
      have hstep : storeStep d m = d := by
        unfold storeStep
        rw [if_neg hst]
      rw [hstep]
      simp [List.filter_cons, hrk]

/-- C10: the harvested output-file mapping keys each stored regular file
(excluding the root entry named `output`) by the basename of its archive
path, with at most one entry per key, and a lookup returns the bytes of the
LAST archive member carrying that basename; in particular two files in
different subdirectories sharing a basename collapse to a single entry
holding the later file's bytes, as the concrete archive in the third
conjunct shows. -/
theorem C10_basename_last_wins (ms : List TarMember) (k : String) :
    ((getOutputFiles ms).map Prod.fst).Nodup ∧
    List.lookup k (getOutputFiles ms) =
      ((ms.filter (fun m => relevantKeyed m k)).getLast?).map TarMember.content ∧
    getOutputFiles
      [{ name := "output", isFile := false, content := [] },
       { name := "output/a/report.txt", isFile := true, content := [1] },
       { name := "output/b/report.txt", isFile := true, content := [2] }] =
      [("report.txt", [2])] := by
  refine ⟨nodup_keys_foldl_storeStep ms [] (by simp), ?_, rfl⟩
  show List.lookup k (ms.foldl storeStep []) = _
  rw [foldl_storeStep_lookup ms [] k]
  cases (ms.filter (fun m => relevantKeyed m k)).getLast? <;> simp [List.lookup]

end ExcelAI
